import Mathlib

/-!
Verification of the Strategic Planning AI synchronization pipeline.

The repository's pipeline scores how well an action-plan document supports a
strategic-plan document.  The runner scripts (`run_complete_analysis.py`,
`run_llm_analysis.py`, `test_entity_extractor.py`), the configuration module
and the two dashboards are present in the repository; the core engine modules
(`src/entity_extractor.py`, `src/scoring_engine.py`, `src/scoring_engine_llm.py`)
are referenced by those callers but their sources are not in the tree, so the
entity matcher, the scoring engine and the LLM scoring engine are modelled
from the specification (sections 3, 4.1, 4.3 and 7 of the design document),
while the runner control flow and the dashboard helpers are embedded directly
from the Python sources.

Scores are modelled as rationals (`ℚ`); Python string match types and
recommendation priorities are modelled as `String`, exactly as the Python
code compares them (`m.match_type == "exact"`, `rec['priority'] == 'high'`).
-/

/-- Modelled from the spec: typed entity extracted from one document
(section 3).  `type` ranges over the spec's entity-type names encoded as
strings, `normalized` is the canonical comparison form, `numValue` the
canonicalized numeric value when one exists, and `sectionId` the owning
section id.  Occurrences are identified positionally by the matcher. -/
structure Entity where
  type : String
  text : String
  normalized : String
  numValue : Option ℚ
  sectionId : Nat
deriving DecidableEq, Repr

/-- Modelled from the spec: an `EntityMatch` pairs one strategic and one
action entity with a classified match type and a score in `[0,100]`
(section 3).  `si` and `ai` are the positions of the two entities in the
strategic and action input sequences; they identify occurrences so that the
partial-bijection invariant can be stated about entity instances. -/
structure EntityMatch where
  si : Nat
  ai : Nat
  strategic_entity : Entity
  action_entity : Entity
  match_type : String
  match_score : Nat
deriving DecidableEq, Repr

/-- Longest common prefix length of two character lists. -/
def lcp : List Char → List Char → Nat
  | a :: as, b :: bs => if a = b then lcp as bs + 1 else 0
  | _, _ => 0

/-- Modelled from the spec: the string-similarity ratio behind fuzzy
matching.  The spec leaves the exact similarity function open (design note,
section 9) and requires implementers to pick a documented one; this model
fixes the Sorensen-Dice style common-prefix ratio
`100 * 2|lcp(s,t)| / (|s|+|t|)`, which is `100` exactly on equal strings and
strictly below `100` on distinct ones. -/
def similarityScore (s t : String) : Nat :=
  let n := s.toList.length + t.toList.length
  if n = 0 then 100 else 100 * (2 * lcp s.toList t.toList) / n

/-- Boolean substring test on strings, used for the partial-match rule. -/
def substringOf (s t : String) : Bool :=
  decide (s.toList <:+: t.toList)

/-- Modelled from the spec: fixed lower score band assigned to partial
matches (section 4.1 step 1 speaks of "a fixed lower score band"). -/
def bandScore : Nat := 60

/-- Modelled from the spec: two optional numeric values are close when both
exist and differ by at most 5% of the larger magnitude (section 4.1 step 1's
"numeric values are within a small relative tolerance (e.g. 5%)"). -/
def numClose : Option ℚ → Option ℚ → Bool
  | some a, some b => decide (|a - b| * 20 ≤ max |a| |b|)
  | _, _ => false

/-- Modelled from the spec: score one same-type candidate pair
(section 4.1 step 1): `100` and `"exact"` when the normalized texts are
equal; the similarity ratio and `"fuzzy"` when it reaches the fuzzy
threshold; the fixed band and `"partial"` when one normalized text is a
substring of the other or the numeric values are within tolerance; otherwise
the pair is not a candidate. -/
def scorePair (fuzzy_threshold : Nat) (se ae : Entity) : Option (Nat × String) :=
  if se.type ≠ ae.type then none
  else if se.normalized = ae.normalized then some (100, "exact")
  else
    let r := similarityScore se.normalized ae.normalized
    if fuzzy_threshold ≤ r then some (r, "fuzzy")
    else if substringOf se.normalized ae.normalized
        || substringOf ae.normalized se.normalized
        || numClose se.numValue ae.numValue then some (bandScore, "partial")
    else none

/-- Candidate pair at a given position pair, when the two entities exist and
the pair scores. -/
def candidateAt (fuzzy_threshold : Nat) (ss as : List Entity) (i j : Nat) :
    Option EntityMatch :=
  match ss[i]?, as[j]? with
  | some se, some ae =>
    match scorePair fuzzy_threshold se ae with
    | some (sc, mt) => some ⟨i, j, se, ae, mt, sc⟩
    | none => none
  | _, _ => none

/-- Modelled from the spec: all scored same-type candidate pairs, generated
in original extraction order (strategic index outer, action index inner). -/
def candidatePairs (fuzzy_threshold : Nat) (ss as : List Entity) : List EntityMatch :=
  (List.range ss.length).flatMap (fun i =>
    (List.range as.length).filterMap (candidateAt fuzzy_threshold ss as i))

/-- Stable insertion of a candidate into a list sorted by descending score:
the new pair goes before an existing one only when its score is strictly
greater, so ties keep original extraction order (section 4.1 step 2). -/
def insertDesc (p : EntityMatch) : List EntityMatch → List EntityMatch
  | [] => [p]
  | q :: qs => if q.match_score ≤ p.match_score then p :: q :: qs else q :: insertDesc p qs

/-- Stable sort of the candidate list by descending match score. -/
def sortDesc : List EntityMatch → List EntityMatch
  | [] => []
  | p :: ps => insertDesc p (sortDesc ps)

/-- Modelled from the spec: greedy assignment by descending score across all
candidate pairs, skipping any pair where either entity occurrence is already
assigned (section 4.1 step 2). -/
def greedy : List EntityMatch → List Nat → List Nat → List EntityMatch
  | [], _, _ => []
  | p :: ps, usedS, usedA =>
    if p.si ∈ usedS ∨ p.ai ∈ usedA then greedy ps usedS usedA
    else p :: greedy ps (p.si :: usedS) (p.ai :: usedA)

/-- Modelled from the spec: match rate and overall entity score,
`matched / total * 100` with the degenerate zero-total case mapped to `0`
rather than a division error (sections 3 and 4.1 step 3). -/
def matchRate (matched total : Nat) : ℚ :=
  if total = 0 then 0 else (matched : ℚ) / (total : ℚ) * 100

/-- Modelled from the spec: result of one entity-matching analysis
(section 3).  Unmatched entities are kept with their positions in the input
sequences. -/
structure EntityAnalysisResult where
  entity_matches : List EntityMatch
  unmatched_strategic_entities : List (Nat × Entity)
  unmatched_action_entities : List (Nat × Entity)
  overall_score : ℚ
  matched_entities : Nat
  total_strategic_entities : Nat
  match_rate : ℚ
deriving DecidableEq, Repr

/-- Pair each index of a filtered index list with the entity stored there. -/
def withEntities (es : List Entity) (idxs : List Nat) : List (Nat × Entity) :=
  idxs.filterMap (fun i => (es[i]?).map (fun e => (i, e)))

/-- Modelled from the spec: the matcher's `match` operation (section 4.1):
score all same-type candidate pairs, sort by descending score with ties in
extraction order, assign greedily without reusing an entity occurrence, and
report unmatched remainders together with the aggregate scores. -/
def matchEntities (fuzzy_threshold : Nat) (ss as : List Entity) : EntityAnalysisResult :=
  let ems := greedy (sortDesc (candidatePairs fuzzy_threshold ss as)) [] []
  let sis := ems.map EntityMatch.si
  let ais := ems.map EntityMatch.ai
  let freeS := (List.range ss.length).filter (fun i => decide (i ∉ sis))
  let freeA := (List.range as.length).filter (fun j => decide (j ∉ ais))
  { entity_matches := ems
    unmatched_strategic_entities := withEntities ss freeS
    unmatched_action_entities := withEntities as freeA
    overall_score := matchRate ems.length ss.length
    matched_entities := ems.length
    total_strategic_entities := ss.length
    match_rate := matchRate ems.length ss.length }

/-- Modelled from the spec: a strategic objective inside a document section
(section 3). -/
structure Objective where
  id : Nat
  title : String
deriving DecidableEq, Repr

/-- Modelled from the spec: one document section holding objectives
(section 3). -/
structure DocSection where
  id : Nat
  title : String
  objectives : List Objective
deriving DecidableEq, Repr

/-- Modelled from the spec: a structured document produced by the external
document processor (section 3). -/
structure StructuredDocument where
  title : String
  organization : String
  sections : List DocSection
deriving DecidableEq, Repr

/-- Modelled from the spec: one ranked action match of an objective, as the
dashboards read it (`rank`, `action_title`, `similarity_score`). -/
structure TopMatch where
  rank : Nat
  action_title : String
  similarity_score : ℚ
deriving DecidableEq, Repr

/-- Modelled from the spec: semantic alignment of one objective
(section 3): the ranked top-k actions and the best similarity in `[0,1]`. -/
structure ObjectiveAlignment where
  objective_title : String
  top_matches : List TopMatch
  best_match_score : ℚ
deriving DecidableEq, Repr

/-- Modelled from the spec: document-level embedding analysis result
(section 3): per-objective alignments plus an embedding score in
`[0,100]`. -/
structure EmbeddingAnalysisResult where
  objective_alignments : List ObjectiveAlignment
  embedding_score : ℚ
deriving DecidableEq, Repr

/-- Modelled from the spec: one prioritized recommendation (section 3);
`priority` is one of the strings `"high"`, `"medium"`, `"low"` and
`current_score` the weak objective's combined score shown by the
dashboard. -/
structure Recommendation where
  priority : String
  objective : String
  actions : List String
  expected_impact : Option String
  current_score : ℚ
deriving DecidableEq, Repr

/-- Modelled from the spec: per-objective synchronization diagnostics
(section 3). -/
structure ObjectiveSynchronization where
  objective_title : String
  combined_score : ℚ
  embedding_score : ℚ
  entity_matches : Nat
  has_strong_support : Bool
  gaps : List String
  top_matching_actions : List TopMatch
deriving DecidableEq, Repr

/-- Modelled from the spec: summary block of the final result (section 3). -/
structure Summary where
  total_objectives : Nat
  objectives_with_strong_support : Nat
  objectives_with_weak_support : Nat
  matched_entities : Nat
  unmatched_entities : Nat
  total_strategic_entities : Nat
deriving DecidableEq, Repr

/-- Modelled from the spec: the final synchronization result persisted once
per run (section 3). -/
structure FinalSynchronizationResult where
  overall_score : ℚ
  embedding_score : ℚ
  entity_score : ℚ
  objective_synchronizations : List ObjectiveSynchronization
  strengths : List String
  weaknesses : List String
  recommendations : List Recommendation
  summary : Summary
deriving DecidableEq, Repr

/-- Modelled from the spec: the swappable InsightGenerator capability
(sections 2 and 4.3 step 7).  It supplies only the natural-language wording
for strengths, weaknesses and recommendation actions; all numeric fields are
computed by the fusion steps themselves. -/
structure InsightGenerator where
  strengthText : ObjectiveSynchronization → String
  weaknessText : ObjectiveSynchronization → String
  recActions : ObjectiveSynchronization → List String
  recImpact : ObjectiveSynchronization → Option String

/-- Modelled from the spec: the rule-based InsightGenerator implementation
producing templated suggestion strings (section 4.3 steps 5 and 6). -/
def ruleBasedGenerator : InsightGenerator where
  strengthText o := "Objective '" ++ o.objective_title ++ "' is strongly supported by the action plan"
  weaknessText o := "Objective '" ++ o.objective_title ++ "' lacks sufficient action support"
  recActions o := ["Add concrete actions addressing '" ++ o.objective_title ++ "'"]
  recImpact _ := none

/-- Modelled from the spec: scoring-engine configuration (section 4.3):
the two fusion weights and the strong-support threshold. -/
structure ScoringEngine where
  embedding_weight : ℚ
  entity_weight : ℚ
  strong_support_threshold : ℚ
deriving DecidableEq, Repr

/-- Modelled from the spec: fail-fast construction of the scoring engine
(sections 4.3 and 7): weights not summing to 1 or a threshold out of range
are a ConfigurationError raised at construction, before any external call;
the model performs no external calls at all. -/
def ScoringEngine.create (ew tw th : ℚ) : Except String ScoringEngine :=
  if ew + tw ≠ 1 then .error "ConfigurationError: weights must sum to 1"
  else if th < 0 ∨ 100 < th then .error "ConfigurationError: threshold out of range"
  else .ok ⟨ew, tw, th⟩

/-- Modelled from the spec: similarity threshold under which an objective is
considered weakly supported (default 0.70, sections 4.2 and 4.3 step 3). -/
def similarityThresholdQ : ℚ := 7 / 10

/-- Modelled from the spec: the section owning an objective, found by title
in the strategic document (section 4.3 step 1 scopes entity support to the
objective's section). -/
def sectionOfObjective (doc : StructuredDocument) (title : String) : Option Nat :=
  (doc.sections.find? (fun s => s.objectives.any (fun o => o.title = title))).map DocSection.id

/-- Modelled from the spec: strategic entities of the entity analysis that
live in the given section, matched and unmatched alike. -/
def strategicEntitiesInSection (ent : EntityAnalysisResult) (sid : Nat) : Nat :=
  ((ent.entity_matches.map EntityMatch.strategic_entity
      ++ ent.unmatched_strategic_entities.map Prod.snd).filter
    (fun e => e.sectionId == sid)).length

/-- Modelled from the spec: number of entity matches whose strategic entity
lies in the objective's section (`entity_matches` count per objective). -/
def countMatchesInSection (ent : EntityAnalysisResult) : Option Nat → Nat
  | none => 0
  | some sid =>
    (ent.entity_matches.filter (fun m => m.strategic_entity.sectionId == sid)).length

/-- Modelled from the spec: per-objective entity support score (section 4.3
step 1): fraction of the section's strategic entities that matched, weighted
by match score, on a 0-100 scale; `0` when the objective has no section or
the section has no strategic entities. -/
def entitySupportScore (ent : EntityAnalysisResult) : Option Nat → ℚ
  | none => 0
  | some sid =>
    let total := strategicEntitiesInSection ent sid
    if total = 0 then 0
    else (((ent.entity_matches.filter
        (fun m => m.strategic_entity.sectionId == sid)).map
        (fun m => (m.match_score : ℚ))).sum) / (total : ℚ)

/-- Modelled from the spec: entity types still unmatched inside a section,
used for templated gap strings (section 4.3 step 3). -/
def unmatchedTypesInSection (ent : EntityAnalysisResult) : Option Nat → List String
  | none => []
  | some sid =>
    ((ent.unmatched_strategic_entities.filter
        (fun p => p.2.sectionId == sid)).map (fun p => p.2.type)).dedup

/-- Modelled from the spec: recommendation priority bands (section 4.3
step 6): high below 50, medium below 75, low otherwise. -/
def priorityFor (score : ℚ) : String :=
  if score < 50 then "high" else if score < 75 then "medium" else "low"

/-- Modelled from the spec: per-objective synchronization record (section 4.3
steps 1-3): combined score as the weighted fusion of the embedding alignment
(best similarity on a 0-100 scale) and the entity support score, strong
support by threshold, and rule-generated gap strings. -/
def objectiveSync (cfg : ScoringEngine) (ent : EntityAnalysisResult)
    (sd : StructuredDocument) (oa : ObjectiveAlignment) : ObjectiveSynchronization :=
  let sid := sectionOfObjective sd oa.objective_title
  let embScore := oa.best_match_score * 100
  let combined := cfg.embedding_weight * embScore + cfg.entity_weight * entitySupportScore ent sid
  { objective_title := oa.objective_title
    combined_score := combined
    embedding_score := embScore
    entity_matches := countMatchesInSection ent sid
    has_strong_support := decide (cfg.strong_support_threshold ≤ combined)
    gaps :=
      (if oa.best_match_score < similarityThresholdQ
        then ["No supporting action found above similarity threshold"] else [])
      ++ (unmatchedTypesInSection ent sid).map
          (fun ty => "Unmatched strategic entity type: " ++ ty)
    top_matching_actions := oa.top_matches }

/-- Modelled from the spec: the fusion operation `combine` parameterized by
the InsightGenerator (section 4.3 steps 1-7): per-objective fusion, the
document-level overall score as the weighted sum of the two document-level
input scores, thresholded strengths and weaknesses, one recommendation per
weak objective with banded priority, and the summary counts. -/
def combineWith (cfg : ScoringEngine) (gen : InsightGenerator)
    (emb : EmbeddingAnalysisResult) (ent : EntityAnalysisResult)
    (sd : StructuredDocument) (_ad : StructuredDocument) : FinalSynchronizationResult :=
  let objs := emb.objective_alignments.map (objectiveSync cfg ent sd)
  { overall_score := cfg.embedding_weight * emb.embedding_score
      + cfg.entity_weight * ent.overall_score
    embedding_score := emb.embedding_score
    entity_score := ent.overall_score
    objective_synchronizations := objs
    strengths := (objs.filter (fun o => decide ((90 : ℚ) ≤ o.combined_score))).map gen.strengthText
    weaknesses := (objs.filter (fun o => decide (o.combined_score < 60))).map gen.weaknessText
    recommendations :=
      (objs.filter (fun o => decide (o.combined_score < cfg.strong_support_threshold))).map
        (fun o =>
          { priority := priorityFor o.combined_score
            objective := o.objective_title
            actions := gen.recActions o
            expected_impact := gen.recImpact o
            current_score := o.combined_score })
    summary :=
      { total_objectives := objs.length
        objectives_with_strong_support := (objs.filter (fun o => o.has_strong_support)).length
        objectives_with_weak_support := (objs.filter (fun o => !o.has_strong_support)).length
        matched_entities := ent.matched_entities
        unmatched_entities := ent.unmatched_strategic_entities.length
        total_strategic_entities := ent.total_strategic_entities } }

/-- Modelled from the spec: the rule-based scoring engine's `combine_scores`
operation: the fusion with the rule-based InsightGenerator (section 4.3). -/
def ScoringEngine.combine_scores (cfg : ScoringEngine)
    (emb : EmbeddingAnalysisResult) (ent : EntityAnalysisResult)
    (sd ad : StructuredDocument) : FinalSynchronizationResult :=
  combineWith cfg ruleBasedGenerator emb ent sd ad

/-- Modelled from the spec: the LLM-based scoring engine: the same fusion
pipeline with the llm-based InsightGenerator capability, which must not
alter the computed scores (section 4.3 step 7).  The external language model
is modelled as the wording functions of the generator. -/
structure LLMScoringEngine where
  cfg : ScoringEngine
  llmInsights : InsightGenerator

/-- Modelled from the spec: `combine_scores` of the LLM-based engine, the
shared fusion with the LLM wording source. -/
def LLMScoringEngine.combine_scores (e : LLMScoringEngine)
    (emb : EmbeddingAnalysisResult) (ent : EntityAnalysisResult)
    (sd ad : StructuredDocument) : FinalSynchronizationResult :=
  combineWith e.cfg e.llmInsights emb ent sd ad

/-- Numeric and structural view of a final result: everything except the
InsightGenerator free text — the scores, the per-objective records, the
summary, and each recommendation's priority, objective and score. -/
structure NumericView where
  overall_score : ℚ
  embedding_score : ℚ
  entity_score : ℚ
  objective_synchronizations : List ObjectiveSynchronization
  summary : Summary
  recommendation_keys : List (String × String × ℚ)
  strength_count : Nat
  weakness_count : Nat
deriving DecidableEq, Repr

/-- Project a final result onto its numeric/structural fields. -/
def numericView (r : FinalSynchronizationResult) : NumericView :=
  { overall_score := r.overall_score
    embedding_score := r.embedding_score
    entity_score := r.entity_score
    objective_synchronizations := r.objective_synchronizations
    summary := r.summary
    recommendation_keys := r.recommendations.map
      (fun rec => (rec.priority, rec.objective, rec.current_score))
    strength_count := r.strengths.length
    weakness_count := r.weaknesses.length }

namespace Dashboard

/-- Embedded from `src/dashboards/dashboard.py`, `get_score_color`: the CSS
class chosen for a score — `"good-score"` at 75 and above, `"medium-score"`
at 60 and above, `"poor-score"` otherwise. -/
def get_score_color (score : ℚ) : String :=
  if 75 ≤ score then "good-score"
  else if 60 ≤ score then "medium-score"
  else "poor-score"

/-- Embedded from `src/dashboards/dashboard.py`, `render_overview`: the
recomputed Entity Match Rate metric,
`(matched / total_ent * 100) if total_ent > 0 else 0`. -/
def match_pct (matched total_ent : ℚ) : ℚ :=
  if total_ent > 0 then matched / total_ent * 100 else 0

end Dashboard

namespace DashboardRag

/-- Embedded from `src/dashboards/dashboard_with_rag.py`, `get_score_color`:
the identical copy of the score-to-CSS-class helper. -/
def get_score_color (score : ℚ) : String :=
  if 75 ≤ score then "good-score"
  else if 60 ≤ score then "medium-score"
  else "poor-score"

/-- Embedded from `src/dashboards/dashboard_with_rag.py`, `render_overview`:
the identical copy of the Entity Match Rate computation. -/
def match_pct (matched total_ent : ℚ) : ℚ :=
  if total_ent > 0 then matched / total_ent * 100 else 0

end DashboardRag

/-- Embedded from `src/test/run_complete_analysis.py`: the upstream
artifacts the pipeline run tries to load — the embedding results file, the
entity results file and the two processed document JSON files; `none` models
a missing file (`FileNotFoundError` on open). -/
structure PipelineFiles where
  embeddingFile : Option EmbeddingAnalysisResult
  entityFile : Option EntityAnalysisResult
  strategicFile : Option StructuredDocument
  actionFile : Option StructuredDocument

/-- Observable outcome of one pipeline run: whether the scoring engine was
ever constructed, and the result file written by `engine.save_results`
(`none` when no file was written). -/
structure RunTrace where
  engineConstructed : Bool
  writtenResult : Option FinalSynchronizationResult
deriving DecidableEq, Repr

/-- Embedded from `src/test/run_complete_analysis.py`, `main`: load the
embedding results, the entity results, then the strategic and action
documents, returning early on any `FileNotFoundError`; only afterwards
construct `ScoringEngine(embedding_weight=0.60, entity_weight=0.40,
strong_support_threshold=75.0)`, run `combine_scores`, and save the final
result file. -/
def runCompleteAnalysis (fs : PipelineFiles) : RunTrace :=
  match fs.embeddingFile with
  | none => { engineConstructed := false, writtenResult := none }
  | some emb =>
    match fs.entityFile with
    | none => { engineConstructed := false, writtenResult := none }
    | some ent =>
      match fs.strategicFile with
      | none => { engineConstructed := false, writtenResult := none }
      | some sd =>
        match fs.actionFile with
        | none => { engineConstructed := false, writtenResult := none }
        | some ad =>
          match ScoringEngine.create 0.60 0.40 75.0 with
          | .error _ => { engineConstructed := false, writtenResult := none }
          | .ok engine =>
            { engineConstructed := true
              writtenResult := some (engine.combine_scores emb ent sd ad) }

/-- Embedded from `src/test/run_complete_analysis.py`, step 2: the engine
configuration the pipeline constructs. -/
def pipelineEngine : ScoringEngine :=
  { embedding_weight := 0.60, entity_weight := 0.40, strong_support_threshold := 75.0 }

/-- Sample strategic KPI entity used by concrete witnesses (spec scenario A). -/
def sampleStrategicEntity : Entity :=
  ⟨"KPI", "15% ROE by 2026", "15% roe by 2026", some (3 / 20), 1⟩

/-- Sample action KPI entity used by concrete witnesses (spec scenario A). -/
def sampleActionEntity : Entity :=
  ⟨"KPI", "Achieve 15% ROE by fiscal 2026", "achieve 15% roe by fiscal 2026", some (3 / 20), 1⟩

/-- Sample embedding analysis with one objective at similarity 0.7, used by
concrete witnesses (spec scenario D: combined score 42). -/
def sampleEmbedding : EmbeddingAnalysisResult :=
  { objective_alignments := [{ objective_title := "Obj1", top_matches := [], best_match_score := 7 / 10 }]
    embedding_score := 42 }

/-- Sample empty entity analysis used by concrete witnesses. -/
def sampleEntityAnalysis : EntityAnalysisResult :=
  { entity_matches := [], unmatched_strategic_entities := [], unmatched_action_entities := []
    overall_score := 0, matched_entities := 0, total_strategic_entities := 0, match_rate := 0 }

/-- Sample strategic document with no sections, used by concrete witnesses. -/
def sampleStrategicDoc : StructuredDocument :=
  { title := "Strategic Plan", organization := "Bank", sections := [] }

/-- Sample action document used by concrete witnesses. -/
def sampleActionDoc : StructuredDocument :=
  { title := "Action Plan", organization := "Bank", sections := [] }

/-- Sample objective synchronization produced by the pipeline engine on the
sample inputs: combined score 42 with no entity support. -/
def sampleWeakObjective : ObjectiveSynchronization :=
  objectiveSync pipelineEngine sampleEntityAnalysis sampleStrategicDoc
    { objective_title := "Obj1", top_matches := [], best_match_score := 7 / 10 }

/-- Sample alternative InsightGenerator standing for an external
language-model wording source, used by concrete witnesses. -/
def sampleLLMGenerator : InsightGenerator where
  strengthText o := "Model-written strength for " ++ o.objective_title
  weaknessText o := "Model-written weakness for " ++ o.objective_title
  recActions o := ["Model-written suggestion for " ++ o.objective_title]
  recImpact _ := some "Model-written impact estimate"

theorem mem_insertDesc {x p : EntityMatch} {l : List EntityMatch} :
    x ∈ insertDesc p l ↔ x = p ∨ x ∈ l := by
  induction l with
  | nil => simp [insertDesc]
  | cons q qs ih =>
    by_cases h : q.match_score ≤ p.match_score
    · simp [insertDesc, h]
    · simp only [insertDesc, if_neg h, List.mem_cons, ih]
      tauto

theorem mem_sortDesc {x : EntityMatch} {l : List EntityMatch} :
    x ∈ sortDesc l ↔ x ∈ l := by
  induction l with
  | nil => simp [sortDesc]
  | cons p ps ih => simp [sortDesc, mem_insertDesc, ih]

theorem greedy_subset {m : EntityMatch} :
    ∀ {ps : List EntityMatch} {uS uA : List Nat}, m ∈ greedy ps uS uA → m ∈ ps := by
  intro ps
  induction ps with
  | nil => intro uS uA h; simp [greedy] at h
  | cons p ps ih =>
    intro uS uA h
    by_cases hu : p.si ∈ uS ∨ p.ai ∈ uA
    · rw [greedy, if_pos hu] at h
      exact List.mem_cons_of_mem _ (ih h)
    · rw [greedy, if_neg hu] at h
      rcases List.mem_cons.mp h with h | h
      · exact h ▸ List.mem_cons_self _ _
      · exact List.mem_cons_of_mem _ (ih h)

theorem greedy_unused {m : EntityMatch} :
    ∀ {ps : List EntityMatch} {uS uA : List Nat},
      m ∈ greedy ps uS uA → m.si ∉ uS ∧ m.ai ∉ uA := by
  intro ps
  induction ps with
  | nil => intro uS uA h; simp [greedy] at h
  | cons p ps ih =>
    intro uS uA h
    by_cases hu : p.si ∈ uS ∨ p.ai ∈ uA
    · rw [greedy, if_pos hu] at h
      exact ih h
    · rw [greedy, if_neg hu] at h
      rcases List.mem_cons.mp h with h | h
      · subst h
        exact ⟨fun hs => hu (Or.inl hs), fun ha => hu (Or.inr ha)⟩
      · have := ih h
        exact ⟨fun hs => this.1 (List.mem_cons_of_mem _ hs),
               fun ha => this.2 (List.mem_cons_of_mem _ ha)⟩

theorem greedy_pairwise :
    ∀ (ps : List EntityMatch) (uS uA : List Nat),
      (greedy ps uS uA).Pairwise (fun m1 m2 => m1.si ≠ m2.si ∧ m1.ai ≠ m2.ai) := by
  intro ps
  induction ps with
  | nil => intro uS uA; simp [greedy]
  | cons p ps ih =>
    intro uS uA
    by_cases hu : p.si ∈ uS ∨ p.ai ∈ uA
    · rw [greedy, if_pos hu]; exact ih uS uA
    · rw [greedy, if_neg hu]
      refine List.Pairwise.cons ?_ (ih _ _)
      intro m hm
      have := greedy_unused hm
      constructor
      · intro hsi; exact this.1 (hsi ▸ List.mem_cons_self _ _)
      · intro hai; exact this.2 (hai ▸ List.mem_cons_self _ _)

theorem candidateAt_some {t : Nat} {ss as : List Entity} {i j : Nat} {m : EntityMatch}
    (h : candidateAt t ss as i j = some m) :
    m.si = i ∧ m.ai = j ∧
      scorePair t m.strategic_entity m.action_entity = some (m.match_score, m.match_type) := by
  unfold candidateAt at h
  split at h
  case _ se ae hse hae =>
    split at h
    case _ sc mt hsp =>
      cases h
      exact ⟨rfl, rfl, hsp⟩
    case _ => exact absurd h (by simp)
  case _ => exact absurd h (by simp)

theorem mem_candidatePairs {t : Nat} {ss as : List Entity} {m : EntityMatch}
    (hm : m ∈ candidatePairs t ss as) :
    m.si < ss.length ∧ m.ai < as.length ∧
      scorePair t m.strategic_entity m.action_entity = some (m.match_score, m.match_type) := by
  rcases List.mem_flatMap.mp hm with ⟨i, hi, hmem⟩
  rcases List.mem_filterMap.mp hmem with ⟨j, hj, hval⟩
  obtain ⟨h1, h2, h3⟩ := candidateAt_some hval
  exact ⟨h1 ▸ List.mem_range.mp hi, h2 ▸ List.mem_range.mp hj, h3⟩

theorem length_filter_partition {α : Type} (l : List α) (p : α → Bool) :
    (l.filter p).length + (l.filter (fun a => !p a)).length = l.length := by
  induction l with
  | nil => rfl
  | cons a l ih =>
    rw [List.filter_cons, List.filter_cons]
    cases hpa : p a
    · simp only [hpa, Bool.not_false, if_true, if_false, List.length_cons]
      simp only [show (false = true) = False by simp, if_false]
      omega
    · simp only [hpa, Bool.not_true, if_true, if_false, List.length_cons]
      simp only [show (false = true) = False by simp, if_false]
      omega

theorem length_filter_mem {sis : List Nat} {n : Nat} (hnd : sis.Nodup)
    (hlt : ∀ i ∈ sis, i < n) :
    ((List.range n).filter (fun i => decide (i ∈ sis))).length = sis.length := by
  have hperm : List.Perm ((List.range n).filter (fun i => decide (i ∈ sis))) sis := by
    refine (List.perm_ext_iff_of_nodup ((List.nodup_range n).filter _) hnd).mpr ?_
    intro a
    constructor
    · intro ha
      have := List.mem_filter.mp ha
      simpa using this.2
    · intro ha
      refine List.mem_filter.mpr ⟨List.mem_range.mpr (hlt a ha), by simpa using ha⟩
  exact hperm.length_eq

theorem withEntities_length {es : List Entity} {idxs : List Nat}
    (h : ∀ i ∈ idxs, i < es.length) :
    (withEntities es idxs).length = idxs.length := by
  induction idxs with
  | nil => simp [withEntities]
  | cons i idxs ih =>
    have hi : i < es.length := h i (List.mem_cons_self _ _)
    have hrest : ∀ j ∈ idxs, j < es.length := fun j hj => h j (List.mem_cons_of_mem _ hj)
    have ih' := ih hrest
    simp only [withEntities] at ih' ⊢
    rw [List.filterMap_cons, List.getElem?_eq_getElem hi]
    simp only [Option.map_some']
    rw [List.length_cons, ih', List.length_cons]

/-- C1: within every result of the entity matcher, the matching is a partial
bijection — no strategic or action entity occurrence appears in more than
one EntityMatch — and the matched count plus the number of unmatched
strategic entities equals the total strategic entity count, for all input
entity sets and thresholds. -/
theorem entity_matching_partial_bijection (t : Nat) (ss as : List Entity) :
    ((matchEntities t ss as).entity_matches.Pairwise
      (fun m1 m2 => m1.si ≠ m2.si ∧ m1.ai ≠ m2.ai))
    ∧ (matchEntities t ss as).matched_entities
        + (matchEntities t ss as).unmatched_strategic_entities.length
        = (matchEntities t ss as).total_strategic_entities := by
  simp only [matchEntities]
  set ems := greedy (sortDesc (candidatePairs t ss as)) [] [] with hems
  set sis := ems.map EntityMatch.si with hsis
  have hpair : ems.Pairwise (fun m1 m2 => m1.si ≠ m2.si ∧ m1.ai ≠ m2.ai) := by
    rw [hems]; exact greedy_pairwise _ _ _
  have hsub : ∀ m ∈ ems, m ∈ candidatePairs t ss as := fun m hm =>
    mem_sortDesc.mp (greedy_subset hm)
  have hlt : ∀ i ∈ sis, i < ss.length := by
    intro i hi
    rcases List.mem_map.mp hi with ⟨m, hm, rfl⟩
    exact (mem_candidatePairs (hsub m hm)).1
  have hnd : sis.Nodup := List.pairwise_map.mpr (hpair.imp (fun h => h.1))
  refine ⟨hpair, ?_⟩
  have hfree : ∀ i ∈ (List.range ss.length).filter (fun i => decide (i ∉ sis)),
      i < ss.length := fun i hi => List.mem_range.mp (List.mem_filter.mp hi).1
  rw [withEntities_length hfree]
  have hcongr : (List.range ss.length).filter (fun i => decide (i ∉ sis))
      = (List.range ss.length).filter (fun i => !decide (i ∈ sis)) := by
    apply List.filter_congr
    intro i _
    simp
  rw [hcongr]
  have hpart := length_filter_partition (List.range ss.length) (fun i => decide (i ∈ sis))
  have hmem := length_filter_mem hnd hlt
  rw [List.length_range] at hpart
  have hlen : sis.length = ems.length := List.length_map _ _
  omega

theorem two_mul_lcp_lt : ∀ (a b : List Char), a ≠ b → 2 * lcp a b < a.length + b.length
  | [], [], h => absurd rfl h
  | [], _ :: _, _ => by simp [lcp]
  | _ :: _, [], _ => by simp [lcp]
  | a :: as, b :: bs, h => by
    by_cases hab : a = b
    · subst hab
      have hne : as ≠ bs := fun heq => h (by rw [heq])
      have := two_mul_lcp_lt as bs hne
      simp only [lcp, eq_self_iff_true, if_true, List.length_cons]
      omega
    · simp only [lcp, if_neg hab, List.length_cons]
      omega

theorem similarityScore_lt_100 {s t : String} (h : s ≠ t) : similarityScore s t < 100 := by
  have hlist : s.toList ≠ t.toList := by
    intro he
    apply h
    cases s with
    | mk ds =>
      cases t with
      | mk dt =>
        simp only [String.toList] at he
        exact congrArg String.mk he
  simp only [similarityScore]
  have hn : ¬ (s.toList.length + t.toList.length = 0) := by
    intro h0
    apply hlist
    have ha : s.toList = [] := List.eq_nil_of_length_eq_zero (by omega)
    have hb : t.toList = [] := List.eq_nil_of_length_eq_zero (by omega)
    rw [ha, hb]
  rw [if_neg hn]
  have hkey := two_mul_lcp_lt s.toList t.toList hlist
  have hpos : 0 < s.toList.length + t.toList.length := Nat.pos_of_ne_zero hn
  refine (Nat.div_lt_iff_lt_mul hpos).mpr ?_
  omega

theorem scorePair_cases {t : Nat} {se ae : Entity} {sc : Nat} {mt : String}
    (h : scorePair t se ae = some (sc, mt)) :
    (mt = "exact" ∧ sc = 100)
    ∨ (mt = "fuzzy" ∧ t ≤ sc ∧ sc < 100)
    ∨ (mt = "partial" ∧ sc = bandScore) := by
  simp only [scorePair] at h
  split_ifs at h with h1 h2 h3 h4
  · simp only [Option.some.injEq, Prod.mk.injEq] at h
    exact Or.inl ⟨h.2.symm, h.1.symm⟩
  · simp only [Option.some.injEq, Prod.mk.injEq] at h
    obtain ⟨hsc, hmt⟩ := h
    exact Or.inr (Or.inl ⟨hmt.symm, hsc ▸ h3, hsc ▸ similarityScore_lt_100 h2⟩)
  · simp only [Option.some.injEq, Prod.mk.injEq] at h
    exact Or.inr (Or.inr ⟨h.2.symm, h.1.symm⟩)

/-- C3: every EntityMatch produced by the matcher satisfies the score bands:
exact matches score exactly 100; fuzzy matches satisfy
fuzzy_threshold ≤ score < 100; partial matches score below fuzzy_threshold
(given that the fixed partial band lies below the configured threshold, as
it does for the pipeline default 85). -/
theorem entity_match_score_bands (t : Nat) (ss as : List Entity)
    (hband : bandScore < t) :
    ∀ m ∈ (matchEntities t ss as).entity_matches,
      (m.match_type = "exact" → m.match_score = 100) ∧
      (m.match_type = "fuzzy" → t ≤ m.match_score ∧ m.match_score < 100) ∧
      (m.match_type = "partial" → m.match_score < t) := by
  intro m hm
  have hcand : m ∈ candidatePairs t ss as := by
    have hfield : (matchEntities t ss as).entity_matches
        = greedy (sortDesc (candidatePairs t ss as)) [] [] := rfl
    rw [hfield] at hm
    exact mem_sortDesc.mp (greedy_subset hm)
  have hsp := (mem_candidatePairs hcand).2.2
  rcases scorePair_cases hsp with ⟨hmt, hsc⟩ | ⟨hmt, hsc1, hsc2⟩ | ⟨hmt, hsc⟩
  · refine ⟨fun _ => hsc, fun hf => ?_, fun hp => ?_⟩
    · rw [hmt] at hf; exact absurd hf (by decide)
    · rw [hmt] at hp; exact absurd hp (by decide)
  · refine ⟨fun he => ?_, fun _ => ⟨hsc1, hsc2⟩, fun hp => ?_⟩
    · rw [hmt] at he; exact absurd he (by decide)
    · rw [hmt] at hp; exact absurd hp (by decide)
  · refine ⟨fun he => ?_, fun hf => ?_, fun _ => hsc ▸ hband⟩
    · rw [hmt] at he; exact absurd he (by decide)
    · rw [hmt] at hf; exact absurd hf (by decide)

/-- Witness for C3 at the pipeline threshold 85 on a concrete entity pair. -/
theorem entity_match_score_bands_witness :
    bandScore < 85 ∧
    ∀ m ∈ (matchEntities 85 [sampleStrategicEntity] [sampleActionEntity]).entity_matches,
      (m.match_type = "exact" → m.match_score = 100) ∧
      (m.match_type = "fuzzy" → 85 ≤ m.match_score ∧ m.match_score < 100) ∧
      (m.match_type = "partial" → m.match_score < 85) :=
  ⟨by decide,
   entity_match_score_bands 85 [sampleStrategicEntity] [sampleActionEntity] (by decide)⟩

/-- C4: the entity match rate — both the matcher's modelled `match_rate` and
the Entity Match Rate metric both dashboards recompute in `render_overview` —
equals matched divided by total strategic entities times 100, and is 0
rather than NaN or a division error when the total is 0; the two dashboard
copies agree extensionally. -/
theorem entity_match_rate_spec (m t : Nat) (q r : ℚ) :
    (0 < t → matchRate m t = (m : ℚ) / (t : ℚ) * 100) ∧
    matchRate m 0 = 0 ∧
    (0 < r → Dashboard.match_pct q r = q / r * 100) ∧
    Dashboard.match_pct q 0 = 0 ∧
    Dashboard.match_pct q r = DashboardRag.match_pct q r := by
  refine ⟨?_, ?_, ?_, ?_, rfl⟩
  · intro ht
    rw [matchRate, if_neg (by omega)]
  · rw [matchRate, if_pos rfl]
  · intro hr
    rw [Dashboard.match_pct, if_pos hr]
  · rw [Dashboard.match_pct, if_neg (by norm_num)]

/-- Witness for C4 at matched 3 of total 4 and the degenerate total 0. -/
theorem entity_match_rate_spec_witness :
    matchRate 3 4 = (3 : ℚ) / (4 : ℚ) * 100 ∧ matchRate 3 0 = 0 ∧
    Dashboard.match_pct 3 4 = (3 : ℚ) / (4 : ℚ) * 100 ∧ Dashboard.match_pct 3 0 = 0 := by
  have h := entity_match_rate_spec 3 4 3 4
  exact ⟨h.1 (by norm_num), h.2.1, h.2.2.1 (by norm_num), h.2.2.2.1⟩

/-- C6: constructing the scoring engine with weights not summing to 1 fails
fast at construction (the model performs no external calls); construction
with the pipeline weights 0.60 and 0.40 succeeds. -/
theorem scoring_engine_weight_validation (ew tw th : ℚ) :
    (ew + tw ≠ 1 → ScoringEngine.create ew tw th
        = Except.error "ConfigurationError: weights must sum to 1") ∧
    ScoringEngine.create 0.60 0.40 75.0 = Except.ok pipelineEngine := by
  constructor
  · intro hne
    rw [ScoringEngine.create, if_pos hne]
  · rw [ScoringEngine.create, if_neg (by norm_num), if_neg (by norm_num)]
    rfl

/-- Witness for C6 at the concrete misconfiguration 0.5 + 0.4. -/
theorem scoring_engine_weight_validation_witness :
    ScoringEngine.create 0.5 0.4 75.0
      = Except.error "ConfigurationError: weights must sum to 1" ∧
    ScoringEngine.create 0.60 0.40 75.0 = Except.ok pipelineEngine :=
  ⟨(scoring_engine_weight_validation 0.5 0.4 75.0).1 (by norm_num),
   (scoring_engine_weight_validation 0.5 0.4 75.0).2⟩

/-- C5: when any required upstream artifact is absent, the pipeline run
returns before the scoring engine is constructed or invoked and writes no
result file. -/
theorem pipeline_aborts_on_missing_artifact (fs : PipelineFiles)
    (h : fs.embeddingFile = none ∨ fs.entityFile = none
      ∨ fs.strategicFile = none ∨ fs.actionFile = none) :
    (runCompleteAnalysis fs).engineConstructed = false ∧
    (runCompleteAnalysis fs).writtenResult = none := by
  rcases fs with ⟨emb, ent, sd, ad⟩
  dsimp only at h
  rcases h with rfl | rfl | rfl | rfl
  · exact ⟨rfl, rfl⟩
  · cases emb <;> exact ⟨rfl, rfl⟩
  · cases emb <;> cases ent <;> exact ⟨rfl, rfl⟩
  · cases emb <;> cases ent <;> cases sd <;> exact ⟨rfl, rfl⟩

/-- Witness for C5: a run with every upstream artifact missing writes
nothing and never constructs the engine. -/
theorem pipeline_aborts_on_missing_artifact_witness :
    (runCompleteAnalysis ⟨none, none, none, none⟩).engineConstructed = false ∧
    (runCompleteAnalysis ⟨none, none, none, none⟩).writtenResult = none :=
  pipeline_aborts_on_missing_artifact ⟨none, none, none, none⟩ (Or.inl rfl)

/-- C2: the document-level overall score returned by the scoring engine's
`combine_scores` equals embedding_weight times the document embedding score
plus entity_weight times the document entity score — for the pipeline
configuration, 0.60 and 0.40 — and depends only on those two document-level
inputs, independently of the per-objective combined-score aggregation. -/
theorem overall_score_formula (cfg : ScoringEngine)
    (emb emb2 : EmbeddingAnalysisResult) (ent ent2 : EntityAnalysisResult)
    (sd ad sd2 ad2 : StructuredDocument) :
    (cfg.combine_scores emb ent sd ad).overall_score
      = cfg.embedding_weight * emb.embedding_score
        + cfg.entity_weight * ent.overall_score ∧
    (pipelineEngine.combine_scores emb ent sd ad).overall_score
      = 0.60 * emb.embedding_score + 0.40 * ent.overall_score ∧
    (emb.embedding_score = emb2.embedding_score →
      ent.overall_score = ent2.overall_score →
      (cfg.combine_scores emb ent sd ad).overall_score
        = (cfg.combine_scores emb2 ent2 sd2 ad2).overall_score) := by
  refine ⟨rfl, rfl, ?_⟩
  intro h1 h2
  show cfg.embedding_weight * emb.embedding_score + cfg.entity_weight * ent.overall_score
    = cfg.embedding_weight * emb2.embedding_score + cfg.entity_weight * ent2.overall_score
  rw [h1, h2]

/-- Witness for C2 on the concrete sample inputs, varying the per-objective
data while the document-level scores stay fixed. -/
theorem overall_score_formula_witness :
    (pipelineEngine.combine_scores sampleEmbedding sampleEntityAnalysis
        sampleStrategicDoc sampleActionDoc).overall_score
      = pipelineEngine.embedding_weight * sampleEmbedding.embedding_score
        + pipelineEngine.entity_weight * sampleEntityAnalysis.overall_score ∧
    (pipelineEngine.combine_scores sampleEmbedding sampleEntityAnalysis
        sampleStrategicDoc sampleActionDoc).overall_score
      = (pipelineEngine.combine_scores sampleEmbedding sampleEntityAnalysis
          sampleActionDoc sampleStrategicDoc).overall_score :=
  ⟨(overall_score_formula pipelineEngine sampleEmbedding sampleEmbedding
      sampleEntityAnalysis sampleEntityAnalysis sampleStrategicDoc sampleActionDoc
      sampleActionDoc sampleStrategicDoc).1,
   (overall_score_formula pipelineEngine sampleEmbedding sampleEmbedding
      sampleEntityAnalysis sampleEntityAnalysis sampleStrategicDoc sampleActionDoc
      sampleActionDoc sampleStrategicDoc).2.2 rfl rfl⟩

theorem combine_recommendations_eq (cfg : ScoringEngine) (gen : InsightGenerator)
    (emb : EmbeddingAnalysisResult) (ent : EntityAnalysisResult)
    (sd ad : StructuredDocument) :
    (combineWith cfg gen emb ent sd ad).recommendations
      = ((combineWith cfg gen emb ent sd ad).objective_synchronizations.filter
          (fun o => decide (o.combined_score < cfg.strong_support_threshold))).map
        (fun o =>
          { priority := priorityFor o.combined_score
            objective := o.objective_title
            actions := gen.recActions o
            expected_impact := gen.recImpact o
            current_score := o.combined_score }) := rfl

theorem combine_weaknesses_eq (cfg : ScoringEngine) (gen : InsightGenerator)
    (emb : EmbeddingAnalysisResult) (ent : EntityAnalysisResult)
    (sd ad : StructuredDocument) :
    (combineWith cfg gen emb ent sd ad).weaknesses
      = ((combineWith cfg gen emb ent sd ad).objective_synchronizations.filter
          (fun o => decide (o.combined_score < 60))).map gen.weaknessText := rfl

theorem mem_objective_syncs_strong_support (cfg : ScoringEngine) (gen : InsightGenerator)
    (emb : EmbeddingAnalysisResult) (ent : EntityAnalysisResult)
    (sd ad : StructuredDocument) {o : ObjectiveSynchronization}
    (ho : o ∈ (combineWith cfg gen emb ent sd ad).objective_synchronizations) :
    o.has_strong_support = decide (cfg.strong_support_threshold ≤ o.combined_score) := by
  rcases List.mem_map.mp ho with ⟨oa, _, rfl⟩
  rfl

/-- C7: for every objective below the strong-support threshold exactly one
recommendation is generated (the recommendation list is in one-to-one
correspondence with the weak objectives), its priority follows the bands
high below 50, medium below 75, low otherwise; and an objective with
combined score 42 under threshold 75 has no strong support, appears in the
weaknesses, and receives a high-priority recommendation. -/
theorem weak_objective_recommendations (cfg : ScoringEngine)
    (emb : EmbeddingAnalysisResult) (ent : EntityAnalysisResult)
    (sd ad : StructuredDocument) :
    ((cfg.combine_scores emb ent sd ad).recommendations.length
      = ((cfg.combine_scores emb ent sd ad).objective_synchronizations.filter
          (fun o => decide (o.combined_score < cfg.strong_support_threshold))).length) ∧
    (∀ rec ∈ (cfg.combine_scores emb ent sd ad).recommendations,
      rec.priority = (if rec.current_score < 50 then "high"
        else if rec.current_score < 75 then "medium" else "low") ∧
      rec.current_score < cfg.strong_support_threshold) ∧
    (∀ o ∈ (cfg.combine_scores emb ent sd ad).objective_synchronizations,
      o.combined_score < cfg.strong_support_threshold →
      ∃ rec ∈ (cfg.combine_scores emb ent sd ad).recommendations,
        rec.objective = o.objective_title ∧ rec.current_score = o.combined_score) ∧
    (∀ o ∈ (cfg.combine_scores emb ent sd ad).objective_synchronizations,
      cfg.strong_support_threshold = 75 → o.combined_score = 42 →
      o.has_strong_support = false ∧
      ruleBasedGenerator.weaknessText o ∈ (cfg.combine_scores emb ent sd ad).weaknesses ∧
      ∃ rec ∈ (cfg.combine_scores emb ent sd ad).recommendations,
        rec.objective = o.objective_title ∧ rec.priority = "high") := by
  have hrec := combine_recommendations_eq cfg ruleBasedGenerator emb ent sd ad
  have hweak := combine_weaknesses_eq cfg ruleBasedGenerator emb ent sd ad
  refine ⟨?_, ?_, ?_, ?_⟩
  · rw [ScoringEngine.combine_scores] at *
    rw [hrec, List.length_map]
  · intro rec hmem
    rw [ScoringEngine.combine_scores] at *
    rw [hrec] at hmem
    rcases List.mem_map.mp hmem with ⟨o, ho, rfl⟩
    have hlt : o.combined_score < cfg.strong_support_threshold := by
      have := (List.mem_filter.mp ho).2
      exact of_decide_eq_true this
    exact ⟨rfl, hlt⟩
  · intro o ho hlt
    rw [ScoringEngine.combine_scores] at *
    refine ⟨{ priority := priorityFor o.combined_score, objective := o.objective_title,
              actions := ruleBasedGenerator.recActions o,
              expected_impact := ruleBasedGenerator.recImpact o,
              current_score := o.combined_score }, ?_, rfl, rfl⟩
    rw [hrec]
    exact List.mem_map.mpr ⟨o, List.mem_filter.mpr ⟨ho, decide_eq_true hlt⟩, rfl⟩
  · intro o ho hth h42
    rw [ScoringEngine.combine_scores] at *
    refine ⟨?_, ?_, ?_⟩
    · rw [mem_objective_syncs_strong_support cfg ruleBasedGenerator emb ent sd ad ho,
        hth, h42]
      exact decide_eq_false (by norm_num)
    · rw [hweak]
      refine List.mem_map.mpr ⟨o, List.mem_filter.mpr ⟨ho, decide_eq_true ?_⟩, rfl⟩
      rw [h42]; norm_num
    · refine ⟨{ priority := priorityFor o.combined_score, objective := o.objective_title,
                actions := ruleBasedGenerator.recActions o,
                expected_impact := ruleBasedGenerator.recImpact o,
                current_score := o.combined_score }, ?_, rfl, ?_⟩
      · rw [hrec]
        refine List.mem_map.mpr ⟨o, List.mem_filter.mpr ⟨ho, decide_eq_true ?_⟩, rfl⟩
        rw [h42, hth]; norm_num
      · show priorityFor o.combined_score = "high"
        rw [h42, priorityFor, if_pos (by norm_num)]

/-- Witness for C7: on the concrete sample inputs the pipeline engine
produces the weak objective with combined score 42, which lacks strong
support, appears in the weaknesses, and gets a high-priority
recommendation. -/
theorem weak_objective_recommendations_witness :
    sampleWeakObjective.has_strong_support = false ∧
    ruleBasedGenerator.weaknessText sampleWeakObjective
      ∈ (pipelineEngine.combine_scores sampleEmbedding sampleEntityAnalysis
          sampleStrategicDoc sampleActionDoc).weaknesses ∧
    ∃ rec ∈ (pipelineEngine.combine_scores sampleEmbedding sampleEntityAnalysis
        sampleStrategicDoc sampleActionDoc).recommendations,
      rec.objective = sampleWeakObjective.objective_title ∧ rec.priority = "high" := by
  have hmem : sampleWeakObjective
      ∈ (pipelineEngine.combine_scores sampleEmbedding sampleEntityAnalysis
          sampleStrategicDoc sampleActionDoc).objective_synchronizations :=
    List.mem_singleton.mpr rfl
  have h42 : sampleWeakObjective.combined_score = 42 := by
    show pipelineEngine.embedding_weight * ((7 : ℚ) / 10 * 100)
        + pipelineEngine.entity_weight * entitySupportScore sampleEntityAnalysis
            (sectionOfObjective sampleStrategicDoc "Obj1") = 42
    norm_num [pipelineEngine, entitySupportScore, sectionOfObjective,
      sampleStrategicDoc, sampleEntityAnalysis]
  exact (weak_objective_recommendations pipelineEngine sampleEmbedding
      sampleEntityAnalysis sampleStrategicDoc sampleActionDoc).2.2.2
    sampleWeakObjective hmem (by norm_num [pipelineEngine]) h42

theorem combineWith_generator_independent (cfg : ScoringEngine)
    (g1 g2 : InsightGenerator) (emb : EmbeddingAnalysisResult)
    (ent : EntityAnalysisResult) (sd ad : StructuredDocument) :
    numericView (combineWith cfg g1 emb ent sd ad)
      = numericView (combineWith cfg g2 emb ent sd ad) := by
  simp only [numericView, combineWith, List.map_map, List.length_map]
  rfl

/-- C8: `combine_scores` is a pure, deterministic function of its inputs and
configuration — identical inputs yield a bit-identical
FinalSynchronizationResult — and swapping the InsightGenerator wording
source preserves every numeric and structural field, including the
recommendation priorities. -/
theorem combine_scores_pure_function (cfg : ScoringEngine)
    (g1 g2 : InsightGenerator)
    (e1 e2 : EmbeddingAnalysisResult) (n1 n2 : EntityAnalysisResult)
    (s1 s2 a1 a2 : StructuredDocument)
    (he : e1 = e2) (hn : n1 = n2) (hs : s1 = s2) (ha : a1 = a2) :
    cfg.combine_scores e1 n1 s1 a1 = cfg.combine_scores e2 n2 s2 a2 ∧
    numericView (combineWith cfg g1 e1 n1 s1 a1)
      = numericView (combineWith cfg g2 e2 n2 s2 a2) := by
  subst he hn hs ha
  exact ⟨rfl, combineWith_generator_independent cfg g1 g2 e1 n1 s1 a1⟩

/-- Witness for C8: two runs of the pipeline engine on the identical sample
inputs agree bit for bit, and swapping in the model-written wording source
leaves the numeric view unchanged. -/
theorem combine_scores_pure_function_witness :
    pipelineEngine.combine_scores sampleEmbedding sampleEntityAnalysis
        sampleStrategicDoc sampleActionDoc
      = pipelineEngine.combine_scores sampleEmbedding sampleEntityAnalysis
        sampleStrategicDoc sampleActionDoc ∧
    numericView (combineWith pipelineEngine ruleBasedGenerator sampleEmbedding
        sampleEntityAnalysis sampleStrategicDoc sampleActionDoc)
      = numericView (combineWith pipelineEngine sampleLLMGenerator sampleEmbedding
        sampleEntityAnalysis sampleStrategicDoc sampleActionDoc) :=
  combine_scores_pure_function pipelineEngine ruleBasedGenerator sampleLLMGenerator
    sampleEmbedding sampleEmbedding sampleEntityAnalysis sampleEntityAnalysis
    sampleStrategicDoc sampleStrategicDoc sampleActionDoc sampleActionDoc
    rfl rfl rfl rfl

/-- C9: on identical inputs and configuration, the LLM-based scoring engine
and the rule-based scoring engine produce final results with exactly the
same numeric and structural fields — all scores, counts and recommendation
priorities — whatever wording the language model produces; only the
natural-language text may differ. -/
theorem llm_engine_preserves_numeric_contract (cfg : ScoringEngine)
    (llmGen : InsightGenerator) (emb : EmbeddingAnalysisResult)
    (ent : EntityAnalysisResult) (sd ad : StructuredDocument) :
    numericView (LLMScoringEngine.combine_scores ⟨cfg, llmGen⟩ emb ent sd ad)
      = numericView (cfg.combine_scores emb ent sd ad) :=
  combineWith_generator_independent cfg llmGen ruleBasedGenerator emb ent sd ad

/-- C10: both dashboards' `get_score_color` partitions the score range —
good-score exactly at 75 and above, medium-score exactly on [60, 75),
poor-score exactly below 60 — and the two copies are extensionally equal. -/
theorem get_score_color_partition (s : ℚ) :
    (Dashboard.get_score_color s = "good-score" ↔ 75 ≤ s) ∧
    (Dashboard.get_score_color s = "medium-score" ↔ 60 ≤ s ∧ s < 75) ∧
    (Dashboard.get_score_color s = "poor-score" ↔ s < 60) ∧
    DashboardRag.get_score_color s = Dashboard.get_score_color s := by
  unfold Dashboard.get_score_color DashboardRag.get_score_color
  split_ifs with h1 h2
  · exact ⟨⟨fun _ => h1, fun _ => rfl⟩,
      ⟨fun hg => absurd hg (by decide), fun hr => absurd hr.2 (by linarith)⟩,
      ⟨fun hg => absurd hg (by decide), fun hr => absurd hr (by linarith)⟩, rfl⟩
  · exact ⟨⟨fun hg => absurd hg (by decide), fun hr => absurd hr h1⟩,
      ⟨fun _ => ⟨h2, not_le.mp h1⟩, fun _ => rfl⟩,
      ⟨fun hg => absurd hg (by decide), fun hr => absurd hr (not_lt.mpr h2)⟩, rfl⟩
  · exact ⟨⟨fun hg => absurd hg (by decide), fun hr => absurd hr h1⟩,
      ⟨fun hg => absurd hg (by decide), fun hr => absurd hr.1 h2⟩,
      ⟨fun _ => not_le.mp h2, fun _ => rfl⟩, rfl⟩
